import Mathlib

/-!
Verification of the Selector Healing Engine.

Shallow embedding of the selector-healing core:
the rule-based candidate provider and the composite (hybrid) healer
from the MakeMyTrip E2E helper, the markup-truncation logic of the
AI healing service, and the retry orchestrator of ResilientPage.
External effects (browser resolution, page snapshots, remote AI calls,
wall clock) are modelled as explicit oracle functions passed in;
thrown JavaScript errors are modelled as Except with the error message.
-/

/-- Model of the JavaScript `String.prototype.includes` check used by the
heuristics: `strIncludes html sub` is true when `sub` occurs as a
contiguous substring of `html`. -/
def strIncludes (html sub : String) : Bool :=
  decide (sub.toList <:+: html.toList)

/-- Model of JavaScript `String.prototype.startsWith` on characters. -/
def strStartsWith (s pre : String) : Bool :=
  pre.toList.isPrefixOf s.toList

/-- Model of JavaScript `s.slice(n)` for a non-negative `n`: drop the
first `n` characters. -/
def strDrop (s : String) (n : Nat) : String :=
  String.mk (s.toList.drop n)

/-- Model of JavaScript `s.slice(0, n)` for a non-negative `n`: keep the
first `n` characters. -/
def strTake (s : String) (n : Nat) : String :=
  String.mk (s.toList.take n)

/-- Drop the last `n` characters, as JavaScript `s.slice(0, -n)` does on
a string longer than `n`. -/
def strDropRight (s : String) (n : Nat) : String :=
  String.mk (s.toList.take (s.toList.length - n))

/-- Characters of the JavaScript regex class used to split a class
selector into tokens: a dot, a colon, square brackets, or whitespace. -/
def jsSplitDelim (c : Char) : Bool :=
  c = '.' || c = ':' || c = '[' || c = ']' ||
  c = ' ' || c = '\t' || c = '\n' || c = '\r' || c = '\x0b' || c = '\x0c'

/-- Leading class token of a selector body, as computed by
`candidate.slice(1).split(/[.\s:[\]]/)[0]` in the source: the characters
up to the first delimiter. -/
def leadingClassToken (s : String) : String :=
  String.mk (s.toList.takeWhile (fun c => !jsSplitDelim c))

/-- Loop body of `ruleBased` from the MakeMyTrip healer: iterate the
candidate group in stored order, skip members equal to the failed
selector, run the shape checks, and fall through to an unconditional
best-effort return of the current candidate. -/
def ruleBasedLoop (failedSelector html : String) : List String → Option String
  | [] => none
  | candidate :: rest =>
    if candidate = failedSelector then ruleBasedLoop failedSelector html rest
    else if strStartsWith candidate "#" &&
        (strIncludes html ("id=\"" ++ strDrop candidate 1 ++ "\"") ||
         strIncludes html ("id=\x27" ++ strDrop candidate 1 ++ "\x27")) then
      some candidate
    else if strStartsWith candidate "[data-cy=" &&
        strIncludes html (strDropRight (strDrop candidate 1) 1) then
      some candidate
    else if strStartsWith candidate "." &&
        ((leadingClassToken (strDrop candidate 1) != "") &&
         strIncludes html (leadingClassToken (strDrop candidate 1))) then
      some candidate
    else
      some candidate

/-- Rule-based healer `ruleBased(failedSelector, html)`: look the failed
selector up in the selector map (modelled as an abstract lookup
function) and scan its candidate group; `none` models the JS `null`. -/
def ruleBased (idx : String → Option (List String)) (failedSelector html : String) :
    Option String :=
  match idx failedSelector with
  | none => none
  | some candidates => ruleBasedLoop failedSelector html candidates

/-- Continuation of the composite healer after the rule-based tier
declines: delegate to the AI service when an API key is present,
otherwise apply the generic last-resort shape heuristics. -/
def mmtAfterRule (hasAnthropicKey hasOpenAIKey : Bool)
    (ai : String → String → Except String String)
    (failedSelector htmlSnapshot : String) : Except String String :=
  if hasAnthropicKey || hasOpenAIKey then ai failedSelector htmlSnapshot
  else if strStartsWith failedSelector "#" then
    Except.ok ("[data-testid=\"" ++ strDrop failedSelector 1 ++ "\"]")
  else if strStartsWith failedSelector "." then
    Except.ok ("[class*=\"" ++ leadingClassToken (strDrop failedSelector 1) ++ "\"]")
  else
    Except.ok failedSelector

/-- The `customHealFn` produced by `createMMTHealerConfig`: rule-based
first (a falsy, i.e. null or empty, result falls through), then the AI
tier when a key exists, then the generic heuristics. The AI call is an
abstract oracle since it performs network I/O. -/
def mmtCustomHeal (idx : String → Option (List String))
    (hasAnthropicKey hasOpenAIKey : Bool)
    (ai : String → String → Except String String)
    (failedSelector htmlSnapshot : String) : Except String String :=
  match ruleBased idx failedSelector htmlSnapshot with
  | some ruleResult =>
    if ruleResult = "" then
      mmtAfterRule hasAnthropicKey hasOpenAIKey ai failedSelector htmlSnapshot
    else Except.ok ruleResult
  | none => mmtAfterRule hasAnthropicKey hasOpenAIKey ai failedSelector htmlSnapshot

/-- Markup truncation `trimHtml` from the AI healing service: snapshots
no longer than the cap pass through unchanged, longer ones are cut at
the cap and suffixed with an explicit truncation marker. -/
def trimHtml (html : String) (maxChars : Nat) : String :=
  if html.length ≤ maxChars then html
  else strTake html maxChars ++ "\n<!-- ... truncated ... -->"

/-- Prompt template `buildPrompt` shared by the remote providers. -/
def buildPrompt (failedSelector htmlSnapshot : String) : String :=
  String.intercalate "\n"
    ["You are an expert at writing Playwright selectors.",
     "A test tried to locate an element with the following selector, but it timed out:",
     "",
     "  Failed selector: " ++ failedSelector,
     "",
     "Below is a simplified snapshot of the current page HTML.",
     "Suggest the single best replacement CSS or Playwright selector that targets the same intended element.",
     "Reply with ONLY the selector string — no explanation, no quotes, no markdown.",
     "",
     "--- HTML SNAPSHOT ---",
     htmlSnapshot]

/-- Suggestion path of the custom provider built by
`createAIHealingService` when `provider` is `custom`: the caller-supplied
function is invoked with the snapshot already trimmed at the default cap. -/
def customSuggestSelector (fn : String → String → Except String String)
    (failedSelector htmlSnapshot : String) : Except String String :=
  fn failedSelector (trimHtml htmlSnapshot 12000)

/-- Prompt actually sent by the remote providers for a given snapshot:
`buildPrompt` over the snapshot trimmed at the default cap. -/
def remotePrompt (failedSelector htmlSnapshot : String) : String :=
  buildPrompt failedSelector (trimHtml htmlSnapshot 12000)

/-- Healing provenance record pushed onto `ResilientPage.healingEvents`. -/
structure HealingEvent where
  originalSelector : String
  healedSelector : String
  action : String
  timestamp : String
  aiProvider : String
  deriving DecidableEq, Repr

/-- JavaScript rendering of the last stored error in the exhaustion
message: the message itself, or the string `undefined` when the healing
loop never ran. -/
def errMsgOf : Option String → String
  | some m => m
  | none => "undefined"

/-- Terminal error text thrown by `healAndRetry` when the retry budget
is exhausted. -/
def exhaustedMsg (selector : String) (maxRetries : Nat) (lastError : Option String) :
    String :=
  "Selector \"" ++ selector ++ "\" could not be healed after " ++
    toString maxRetries ++ " attempt(s). Last error: " ++ errMsgOf lastError

/-- Healing loop of `healAndRetry`, step 3 of the source. The oracles:
`suggest` is the provider call (may fail), `tryAttempt k s` is the
bounded `waitFor` plus wrapped action for selector `s` at call number
`k` (the direct attempt is call 0, healing attempt `i` is call `i + 1`),
`content i` is the page snapshot pulled at healing attempt `i`.
Arguments after `action`: remaining iterations, current attempt index,
current seed selector, last stored error. Returns the outcome (a thrown
message or the recorded event) paired with the list of seed selectors
handed to the provider, in call order. -/
def healLoop (suggest : String → String → Except String String)
    (tryAttempt : Nat → String → Except String Unit)
    (content : Nat → String) (providerName ts : String) (maxRetries : Nat)
    (selector action : String) :
    Nat → Nat → String → Option String → Except String HealingEvent × List String
  | 0, _, _, lastError => (Except.error (exhaustedMsg selector maxRetries lastError), [])
  | remaining + 1, attempt, currentSelector, _ =>
    match suggest currentSelector (content attempt) with
    | Except.error e => (Except.error e, [currentSelector])
    | Except.ok suggested =>
      match tryAttempt (attempt + 1) suggested with
      | Except.ok _ =>
        (Except.ok ⟨selector, suggested, action, ts, providerName⟩, [currentSelector])
      | Except.error err =>
        match healLoop suggest tryAttempt content providerName ts maxRetries
            selector action remaining (attempt + 1) suggested (some err) with
        | (res, qs) => (res, currentSelector :: qs)

/-- Model of `ResilientPage.healAndRetry`: direct attempt first, then
the disabled-healing error or the healing loop. `aiService` carries the
provider name and its suggestion oracle when healing is enabled. The
result pairs the outcome (error message, or list of healing events
appended by this call) with the seeds handed to the provider. -/
def healAndRetry (aiService : Option (String × (String → String → Except String String)))
    (tryAttempt : Nat → String → Except String Unit)
    (content : Nat → String) (ts : String) (maxRetries : Nat)
    (selector action : String) :
    Except String (List HealingEvent) × List String :=
  match tryAttempt 0 selector with
  | Except.ok _ => (Except.ok [], [])
  | Except.error _ =>
    match aiService with
    | none =>
      (Except.error ("Selector \"" ++ selector ++ "\" timed out and AI healing is disabled."),
       [])
    | some (providerName, suggest) =>
      match healLoop suggest tryAttempt content providerName ts maxRetries
          selector action maxRetries 0 selector none with
      | (Except.ok ev, qs) => (Except.ok [ev], qs)
      | (Except.error m, qs) => (Except.error m, qs)

/-- Observable effect of one action call on the healing event log: on
success the appended events extend the log, on a throw the log is left
as it was. -/
def runAction (log : List HealingEvent)
    (aiService : Option (String × (String → String → Except String String)))
    (tryAttempt : Nat → String → Except String Unit)
    (content : Nat → String) (ts : String) (maxRetries : Nat)
    (selector action : String) : Except String Unit × List HealingEvent :=
  match healAndRetry aiService tryAttempt content ts maxRetries selector action with
  | (Except.ok evs, _) => (Except.ok (), log ++ evs)
  | (Except.error m, _) => (Except.error m, log)

/-- Modelled from the words of claim C1 (spec section 4.3 and 4.2), for
refutation by comparison with `ruleBased`: iterate the group in stored
order, skip the failed selector, return the first member passing the
shape heuristics, and only when none passes return the very first
non-matching member. -/
def claimShapeOk (candidate html : String) : Bool :=
  if strStartsWith candidate "#" then
    strIncludes html ("id=\"" ++ strDrop candidate 1 ++ "\"") ||
    strIncludes html ("id=\x27" ++ strDrop candidate 1 ++ "\x27")
  else if strStartsWith candidate "." then
    strIncludes html (leadingClassToken (strDrop candidate 1))
  else true

/-- Modelled from the words of claim C1: the rule-based provider as the
spec sentence describes it. -/
def ruleBasedClaim (idx : String → Option (List String)) (failedSelector html : String) :
    Option String :=
  match idx failedSelector with
  | none => none
  | some candidates =>
    let others := candidates.filter (fun c => c != failedSelector)
    match others.find? (fun c => claimShapeOk c html) with
    | some c => some c
    | none => others.head?

/-- Lookup table for the C1 counterexample: one candidate group in which
the first alternative is implausible for the markup and the second is
plausible. -/
def idxC1 : String → Option (List String) := fun s =>
  if s = "#x" then some ["#x", "#a", "#b"] else none

/-- Markup for the C1 counterexample: contains the id of the second
alternative only. -/
def htmlC1 : String := "<div id=\"b\">hello</div>"

/-- Oracle: every resolution attempt times out. -/
def tryNever : Nat → String → Except String Unit := fun _ _ => Except.error "Timeout"

/-- Oracle: every resolution attempt succeeds. -/
def tryAlwaysOk : Nat → String → Except String Unit := fun _ _ => Except.ok ()

/-- Oracle: only the selector `#fixed` resolves. -/
def tryOnlyFixed : Nat → String → Except String Unit := fun _ s =>
  if s = "#fixed" then Except.ok () else Except.error "Timeout"

/-- Oracle: only the selector `#s2` resolves. -/
def tryChain : Nat → String → Except String Unit := fun _ s =>
  if s = "#s2" then Except.ok () else Except.error "Timeout"

/-- Oracle: every resolution attempt fails with the message of the
exhaustion test. -/
def tryStill : Nat → String → Except String Unit := fun _ _ => Except.error "Still broken"

/-- Provider oracle that always suggests `#fixed`. -/
def suggestFixed : String → String → Except String String := fun _ _ => Except.ok "#fixed"

/-- Provider oracle that always throws. -/
def suggestThrow : String → String → Except String String := fun _ _ => Except.error "AI is down"

/-- Provider oracle that suggests `#s1` for the original selector and
`#s2` for everything else. -/
def suggestChain : String → String → Except String String := fun s _ =>
  if s = "#orig" then Except.ok "#s1" else Except.ok "#s2"

/-- Provider oracle that always suggests `#still-broken`. -/
def suggestStill : String → String → Except String String := fun _ _ =>
  Except.ok "#still-broken"

/-- Snapshot oracle returning a fixed page. -/
def contentBlank : Nat → String := fun _ => "<html></html>"

/- Helper lemmas. -/

/-- Characters of a concatenation are the concatenated characters. -/
theorem strToList_append (a b : String) : (a ++ b).toList = a.toList ++ b.toList := by
  cases a
  cases b
  rfl

/-- Substring containment unfolds to the infix relation on characters. -/
theorem strIncludes_iff (html sub : String) :
    strIncludes html sub = true ↔ sub.toList <:+: html.toList := by
  simp [strIncludes]

/-- Any candidate different from the failed selector is returned on the
spot: each shape check that fails falls through to the unconditional
best-effort return. -/
theorem ruleBasedLoop_cons_ne (failedSelector html candidate : String)
    (rest : List String) (h : ¬ candidate = failedSelector) :
    ruleBasedLoop failedSelector html (candidate :: rest) = some candidate := by
  simp only [ruleBasedLoop, if_neg h]
  split
  · rfl
  · split
    · rfl
    · split <;> rfl

/-- The rule-based scan over a candidate group returns exactly the first
member different from the failed selector. -/
theorem ruleBasedLoop_eq_find (failedSelector html : String) (l : List String) :
    ruleBasedLoop failedSelector html l = l.find? (fun c => c != failedSelector) := by
  induction l with
  | nil => rfl
  | cons c rest ih =>
    by_cases h : c = failedSelector
    · subst h
      simp only [ruleBasedLoop, if_pos rfl, ih, List.find?]
      simp
    · rw [ruleBasedLoop_cons_ne failedSelector html c rest h]
      simp only [List.find?]
      rw [show (c != failedSelector) = true by simpa using h]

/- Claim theorems. -/

/-- C1, counterexample: the group of `#x` is `["#x", "#a", "#b"]` and the
markup contains only `id="b"`, so `#a` fails the ID shape check while
`#b` passes it; the claim predicts `#b`, but `ruleBased` returns the
implausible first non-matching member `#a`. -/
theorem c1_counterexample :
    ruleBased idxC1 "#x" htmlC1 = some "#a" ∧
    ruleBasedClaim idxC1 "#x" htmlC1 = some "#b" := by
  decide

/-- C1, amended: for a selector present in the index, the rule-based
provider returns the first member of its candidate group different from
the failed selector, irrespective of the markup; the shape heuristics
never cause a member to be skipped, because a candidate failing its
check falls through to the unconditional best-effort return. When every
member equals the failed selector the result is `none`. -/
theorem c1_rule_based_first_nonmatching
    (idx : String → Option (List String)) (failedSelector html : String)
    (g : List String) (h : idx failedSelector = some g) :
    ruleBased idx failedSelector html = g.find? (fun c => c != failedSelector) := by
  simp only [ruleBased, h]
  exact ruleBasedLoop_eq_find failedSelector html g

/-- C1, witness: the amended statement evaluated on the counterexample
index. -/
theorem c1_rule_based_first_nonmatching_witness :
    ruleBased idxC1 "#x" htmlC1 = ["#x", "#a", "#b"].find? (fun c => c != "#x") :=
  c1_rule_based_first_nonmatching idxC1 "#x" htmlC1 ["#x", "#a", "#b"] rfl

/-- C8: a selector absent from the candidate index yields no suggestion
from the rule-based provider. -/
theorem c8_absent_no_suggestion
    (idx : String → Option (List String)) (failedSelector html : String)
    (h : idx failedSelector = none) :
    ruleBased idx failedSelector html = none := by
  simp [ruleBased, h]

/-- C8, witness: an empty index on a concrete selector. -/
theorem c8_absent_no_suggestion_witness :
    ruleBased (fun _ => none) "#notInMap" "<html></html>" = none :=
  c8_absent_no_suggestion (fun _ => none) "#notInMap" "<html></html>" rfl

/-- C10: when every member of the candidate group equals the failed
selector, the rule-based provider returns no suggestion — the best
effort fallback never fires — and the composite healer falls through to
the key-gated remote tier or the generic shape heuristics. -/
theorem c10_singleton_group_no_suggestion
    (idx : String → Option (List String)) (failedSelector html : String)
    (g : List String) (hasAnthropicKey hasOpenAIKey : Bool)
    (ai : String → String → Except String String)
    (hg : idx failedSelector = some g) (hall : ∀ c ∈ g, c = failedSelector) :
    ruleBased idx failedSelector html = none ∧
    mmtCustomHeal idx hasAnthropicKey hasOpenAIKey ai failedSelector html =
      mmtAfterRule hasAnthropicKey hasOpenAIKey ai failedSelector html := by
  have hrb : ruleBased idx failedSelector html = none := by
    simp only [ruleBased, hg, ruleBasedLoop_eq_find]
    rw [List.find?_eq_none]
    intro x hx
    simp [hall x hx]
  exact ⟨hrb, by simp only [mmtCustomHeal, hrb]⟩

/-- C10, witness: a group whose members all equal the failed selector. -/
theorem c10_singleton_group_no_suggestion_witness :
    ruleBased (fun s => if s = "#solo" then some ["#solo", "#solo"] else none)
        "#solo" "<p></p>" = none ∧
    mmtCustomHeal (fun s => if s = "#solo" then some ["#solo", "#solo"] else none)
        false false (fun _ _ => Except.error "ai") "#solo" "<p></p>" =
      mmtAfterRule false false (fun _ _ => Except.error "ai") "#solo" "<p></p>" :=
  c10_singleton_group_no_suggestion
    (fun s => if s = "#solo" then some ["#solo", "#solo"] else none)
    "#solo" "<p></p>" ["#solo", "#solo"] false false (fun _ _ => Except.error "ai")
    rfl (by decide)

/-- C7: with no candidate index entry and no remote credential, the
composite healer applies the last-resort shape heuristics: an ID-shaped
selector maps to the equivalent data-testid attribute selector, a
class-shaped selector maps to a wildcard class-attribute selector over
its leading class token, and anything else is returned unchanged. -/
theorem c7_last_resort_heuristics
    (idx : String → Option (List String))
    (ai : String → String → Except String String) (failedSelector html : String)
    (h : idx failedSelector = none) :
    mmtCustomHeal idx false false ai failedSelector html =
      Except.ok
        (if strStartsWith failedSelector "#" then
          "[data-testid=\"" ++ strDrop failedSelector 1 ++ "\"]"
        else if strStartsWith failedSelector "." then
          "[class*=\"" ++ leadingClassToken (strDrop failedSelector 1) ++ "\"]"
        else failedSelector) := by
  have hrb : ruleBased idx failedSelector html = none := by simp [ruleBased, h]
  simp only [mmtCustomHeal, hrb, mmtAfterRule, Bool.or_false]
  rw [if_neg Bool.false_ne_true]
  by_cases h1 : strStartsWith failedSelector "#" <;>
    by_cases h2 : strStartsWith failedSelector "." <;> simp [h1, h2]

/-- C7, witness: scenarios B, C and D of the spec, at a concrete empty
index with no keys. -/
theorem c7_last_resort_heuristics_witness :
    mmtCustomHeal (fun _ => none) false false (fun _ _ => Except.error "ai")
        "#unknownWidget123" "<html></html>" =
      Except.ok "[data-testid=\"unknownWidget123\"]" ∧
    mmtCustomHeal (fun _ => none) false false (fun _ _ => Except.error "ai")
        ".someRandomClass" "<html></html>" =
      Except.ok "[class*=\"someRandomClass\"]" ∧
    mmtCustomHeal (fun _ => none) false false (fun _ _ => Except.error "ai")
        "//div[1]/span" "<html></html>" =
      Except.ok "//div[1]/span" :=
  ⟨(c7_last_resort_heuristics (fun _ => none) (fun _ _ => Except.error "ai")
      "#unknownWidget123" "<html></html>" rfl).trans rfl,
   (c7_last_resort_heuristics (fun _ => none) (fun _ _ => Except.error "ai")
      ".someRandomClass" "<html></html>" rfl).trans rfl,
   (c7_last_resort_heuristics (fun _ => none) (fun _ _ => Except.error "ai")
      "//div[1]/span" "<html></html>" rfl).trans rfl⟩

/-- C6: a snapshot within the cap is handed to providers unchanged; a
longer snapshot is cut to the first `maxChars` characters followed by
the explicit truncation marker, so the shortened text ends with the
marker; the custom provider receives the trimmed snapshot before the
caller-supplied function runs, and the remote prompt embeds the trimmed
snapshot, both at the default cap of 12000. -/
theorem c6_truncation (html : String) (maxChars : Nat) :
    (html.length ≤ maxChars → trimHtml html maxChars = html) ∧
    (maxChars < html.length →
      trimHtml html maxChars =
        strTake html maxChars ++ "\n<!-- ... truncated ... -->" ∧
      "<!-- ... truncated ... -->".toList <:+ (trimHtml html maxChars).toList) ∧
    (∀ fn failedSelector, customSuggestSelector fn failedSelector html =
      fn failedSelector (trimHtml html 12000)) ∧
    (∀ failedSelector, remotePrompt failedSelector html =
      buildPrompt failedSelector (trimHtml html 12000)) := by
  refine ⟨fun h => by simp [trimHtml, h], fun h => ?_, fun fn f => rfl, fun f => rfl⟩
  have hnot : ¬ html.length ≤ maxChars := not_le.mpr h
  have heq : trimHtml html maxChars =
      strTake html maxChars ++ "\n<!-- ... truncated ... -->" := by
    simp [trimHtml, hnot]
  refine ⟨heq, ?_⟩
  rw [heq, strToList_append]
  have h1 : "<!-- ... truncated ... -->".toList <:+ "\n<!-- ... truncated ... -->".toList :=
    ⟨['\n'], rfl⟩
  exact h1.trans (List.suffix_append _ _)

/-- C6, witness: a snapshot under the cap and one over a concrete cap. -/
theorem c6_truncation_witness :
    trimHtml "ab" 5 = "ab" ∧
    trimHtml "abcdefgh" 5 = strTake "abcdefgh" 5 ++ "\n<!-- ... truncated ... -->" :=
  ⟨(c6_truncation "ab" 5).1 (by decide),
   ((c6_truncation "abcdefgh" 5).2.1 (by decide)).1⟩

/-- C9: when the direct attempt resolves and the wrapped action
completes, no healing event is appended, the provider is never
consulted (the query trace is empty), and the log is unchanged. -/
theorem c9_direct_success_no_event
    (aiService : Option (String × (String → String → Except String String)))
    (tryAttempt : Nat → String → Except String Unit) (content : Nat → String)
    (ts : String) (maxRetries : Nat) (selector actionName : String)
    (log : List HealingEvent)
    (h : tryAttempt 0 selector = Except.ok ()) :
    healAndRetry aiService tryAttempt content ts maxRetries selector actionName =
      (Except.ok [], []) ∧
    runAction log aiService tryAttempt content ts maxRetries selector actionName =
      (Except.ok (), log) := by
  have h1 : healAndRetry aiService tryAttempt content ts maxRetries selector actionName =
      (Except.ok [], []) := by
    simp only [healAndRetry, h]
  exact ⟨h1, by simp [runAction, h1]⟩

/-- C9, witness: a resolving selector on concrete oracles. -/
theorem c9_direct_success_no_event_witness :
    healAndRetry none tryAlwaysOk contentBlank "t" 1 "#btn" "click" =
      (Except.ok [], []) ∧
    runAction [] none tryAlwaysOk contentBlank "t" 1 "#btn" "click" =
      (Except.ok (), []) :=
  c9_direct_success_no_event none tryAlwaysOk contentBlank "t" 1 "#btn" "click" [] rfl

/-- C2, counterexample: the claim says a provider failure consumes one
retry attempt and, with maxHealingRetries equal to 2 and retries
remaining, the orchestrator proceeds to the next healing attempt. On
the code, a provider throw on the first healing attempt rejects the
whole action at once: the provider is consulted exactly once (the query
trace has length 1, not 2) and the action rejects with the provider
error. -/
theorem c2_counterexample :
    healAndRetry (some ("custom", fun _ _ => Except.error "AI is down"))
        (fun _ _ => Except.error "Timeout") (fun _ => "<html></html>")
        "t" 2 "#orig" "click" =
      (Except.error "AI is down", ["#orig"]) ∧
    (healAndRetry (some ("custom", fun _ _ => Except.error "AI is down"))
        (fun _ _ => Except.error "Timeout") (fun _ => "<html></html>")
        "t" 2 "#orig" "click").2.length = 1 :=
  ⟨rfl, rfl⟩

/-- C2, amended: when the provider throws during the first healing
attempt, the error is propagated immediately as the rejection of the
whole action, aborting the healing loop: no further provider calls or
resolution attempts are made regardless of the remaining retry budget,
and the event log is unchanged. -/
theorem c2_provider_error_aborts
    (providerName : String) (suggest : String → String → Except String String)
    (tryAttempt : Nat → String → Except String Unit) (content : Nat → String)
    (ts : String) (m : Nat) (selector actionName : String) (log : List HealingEvent)
    (e0 pe : String)
    (h0 : tryAttempt 0 selector = Except.error e0)
    (hp : suggest selector (content 0) = Except.error pe) :
    healAndRetry (some (providerName, suggest)) tryAttempt content ts (m + 1)
        selector actionName = (Except.error pe, [selector]) ∧
    runAction log (some (providerName, suggest)) tryAttempt content ts (m + 1)
        selector actionName = (Except.error pe, log) := by
  have h1 : healAndRetry (some (providerName, suggest)) tryAttempt content ts (m + 1)
      selector actionName = (Except.error pe, [selector]) := by
    simp only [healAndRetry, h0, healLoop, hp]
  exact ⟨h1, by simp [runAction, h1]⟩

/-- C2, witness: the amended statement on concrete oracles with two
retries allowed. -/
theorem c2_provider_error_aborts_witness :
    healAndRetry (some ("custom", suggestThrow)) tryNever contentBlank "t" 2
        "#broken" "click" = (Except.error "AI is down", ["#broken"]) ∧
    runAction [] (some ("custom", suggestThrow)) tryNever contentBlank "t" 2
        "#broken" "click" = (Except.error "AI is down", []) :=
  c2_provider_error_aborts "custom" suggestThrow tryNever contentBlank "t" 1
    "#broken" "click" [] "Timeout" "AI is down" rfl rfl

/-- C3: with a single healing retry whose suggestion also fails to
resolve, the action throws the terminal exhaustion error — whose text
contains the original selector, the retry bound and the last underlying
failure message — and the healing event log is unchanged. -/
theorem c3_exhausted_error_log_unchanged
    (providerName : String) (suggest : String → String → Except String String)
    (tryAttempt : Nat → String → Except String Unit) (content : Nat → String)
    (ts : String) (selector actionName : String) (log : List HealingEvent)
    (e0 s1 e1 : String)
    (h0 : tryAttempt 0 selector = Except.error e0)
    (hs : suggest selector (content 0) = Except.ok s1)
    (h1 : tryAttempt 1 s1 = Except.error e1) :
    healAndRetry (some (providerName, suggest)) tryAttempt content ts 1
        selector actionName =
      (Except.error (exhaustedMsg selector 1 (some e1)), [selector]) ∧
    strIncludes (exhaustedMsg selector 1 (some e1)) selector = true ∧
    strIncludes (exhaustedMsg selector 1 (some e1)) "1" = true ∧
    strIncludes (exhaustedMsg selector 1 (some e1)) e1 = true ∧
    runAction log (some (providerName, suggest)) tryAttempt content ts 1
        selector actionName =
      (Except.error (exhaustedMsg selector 1 (some e1)), log) := by
  have hloop : healLoop suggest tryAttempt content providerName ts 1 selector actionName
      1 0 selector none =
      (Except.error (exhaustedMsg selector 1 (some e1)), [selector]) := by
    show healLoop suggest tryAttempt content providerName ts 1 selector actionName
      (Nat.succ 0) 0 selector none = _
    simp only [healLoop, hs, Nat.zero_add, h1]
  have hmain : healAndRetry (some (providerName, suggest)) tryAttempt content ts 1
      selector actionName =
      (Except.error (exhaustedMsg selector 1 (some e1)), [selector]) := by
    simp only [healAndRetry, h0, hloop]
  refine ⟨hmain, ?_, ?_, ?_, by simp [runAction, hmain]⟩
  · rw [strIncludes_iff]
    refine ⟨"Selector \"".toList,
      "\" could not be healed after ".toList ++ (toString (1 : Nat)).toList ++
        " attempt(s). Last error: ".toList ++ e1.toList, ?_⟩
    simp [exhaustedMsg, errMsgOf, strToList_append]
  · rw [strIncludes_iff]
    refine ⟨"Selector \"".toList ++ selector.toList ++
      "\" could not be healed after ".toList,
      " attempt(s). Last error: ".toList ++ e1.toList, ?_⟩
    simp [exhaustedMsg, errMsgOf, strToList_append,
      show toString (1 : Nat) = "1" from rfl]
  · rw [strIncludes_iff]
    refine ⟨"Selector \"".toList ++ selector.toList ++
      "\" could not be healed after ".toList ++ (toString (1 : Nat)).toList ++
      " attempt(s). Last error: ".toList, [], ?_⟩
    simp [exhaustedMsg, errMsgOf, strToList_append]

/-- C3, witness: concrete oracles in which the only suggestion also
times out. -/
theorem c3_exhausted_error_log_unchanged_witness :
    healAndRetry (some ("custom", suggestStill)) tryStill contentBlank "t" 1
        "#broken" "click" =
      (Except.error (exhaustedMsg "#broken" 1 (some "Still broken")), ["#broken"]) ∧
    runAction [] (some ("custom", suggestStill)) tryStill contentBlank "t" 1
        "#broken" "click" =
      (Except.error (exhaustedMsg "#broken" 1 (some "Still broken")), []) :=
  ⟨(c3_exhausted_error_log_unchanged "custom" suggestStill tryStill contentBlank
      "t" "#broken" "click" [] "Still broken" "#still-broken" "Still broken"
      rfl rfl rfl).1,
   (c3_exhausted_error_log_unchanged "custom" suggestStill tryStill contentBlank
      "t" "#broken" "click" [] "Still broken" "#still-broken" "Still broken"
      rfl rfl rfl).2.2.2.2⟩

/-- Invariant of the healing loop on success: the recorded event carries
the fixed original selector, action name, timestamp and provider name,
and its healed selector is a provider suggestion that was then resolved
and executed successfully. -/
theorem healLoop_ok_inv (suggest : String → String → Except String String)
    (tryAttempt : Nat → String → Except String Unit) (content : Nat → String)
    (providerName ts : String) (maxRetries : Nat) (selector actionName : String) :
    ∀ n attempt cur le ev qs,
      healLoop suggest tryAttempt content providerName ts maxRetries selector actionName
          n attempt cur le = (Except.ok ev, qs) →
      ev.originalSelector = selector ∧ ev.action = actionName ∧
      ev.timestamp = ts ∧ ev.aiProvider = providerName ∧
      ∃ k seed, suggest seed (content k) = Except.ok ev.healedSelector ∧
        tryAttempt (k + 1) ev.healedSelector = Except.ok () := by
  intro n
  induction n with
  | zero =>
    intro attempt cur le ev qs h
    simp [healLoop] at h
  | succ m ih =>
    intro attempt cur le ev qs h
    simp only [healLoop] at h
    rcases hsug : suggest cur (content attempt) with e | s
    · simp only [hsug] at h
      simp at h
    · simp only [hsug] at h
      rcases htry : tryAttempt (attempt + 1) s with err | u
      · simp only [htry] at h
        simp only [Prod.mk.injEq] at h
        obtain ⟨hres, hqs⟩ := h
        exact ih (attempt + 1) s (some err) ev
          (healLoop suggest tryAttempt content providerName ts maxRetries selector
            actionName m (attempt + 1) s (some err)).2
          (by rw [← hres])
      · simp only [htry] at h
        simp only [Prod.mk.injEq, Except.ok.injEq] at h
        obtain ⟨hev, hqs⟩ := h
        subst hev
        refine ⟨rfl, rfl, rfl, rfl, attempt, cur, hsug, ?_⟩
        cases u
        exact htry

/-- C4: every healing event appended by an action call records as
`originalSelector` the selector passed to the top-level call, however
many intermediate suggestions failed first, and as `healedSelector` a
provider suggestion that itself resolved and completed the wrapped
action. -/
theorem c4_event_provenance
    (providerName : String) (suggest : String → String → Except String String)
    (tryAttempt : Nat → String → Except String Unit) (content : Nat → String)
    (ts : String) (maxRetries : Nat) (selector actionName : String)
    (evs : List HealingEvent) (qs : List String)
    (h : healAndRetry (some (providerName, suggest)) tryAttempt content ts maxRetries
        selector actionName = (Except.ok evs, qs)) :
    ∀ ev ∈ evs, ev.originalSelector = selector ∧
      ∃ k seed, suggest seed (content k) = Except.ok ev.healedSelector ∧
        tryAttempt (k + 1) ev.healedSelector = Except.ok () := by
  intro ev hev
  unfold healAndRetry at h
  rcases h0 : tryAttempt 0 selector with e | u
  · simp only [h0] at h
    rcases hloop : healLoop suggest tryAttempt content providerName ts maxRetries
        selector actionName maxRetries 0 selector none with ⟨res, qs'⟩
    rw [hloop] at h
    cases res with
    | error m => simp at h
    | ok ev' =>
      simp only [Prod.mk.injEq, Except.ok.injEq] at h
      obtain ⟨hevs, hqs⟩ := h
      subst hevs
      have hm : ev = ev' := by simpa using hev
      subst hm
      have inv := healLoop_ok_inv suggest tryAttempt content providerName ts maxRetries
        selector actionName maxRetries 0 selector none ev qs' hloop
      exact ⟨inv.1, inv.2.2.2.2⟩
  · simp only [h0] at h
    simp only [Prod.mk.injEq, Except.ok.injEq] at h
    obtain ⟨hevs, hqs⟩ := h
    subst hevs
    simp at hev

/-- C4, witness: one failed suggestion before a successful one is not
needed to exercise the invariant; the single-heal scenario instantiates
it. -/
theorem c4_event_provenance_witness :
    (⟨"#broken", "#fixed", "click", "t", "custom"⟩ : HealingEvent).originalSelector =
      "#broken" ∧
    ∃ k seed, suggestFixed seed (contentBlank k) =
        Except.ok (⟨"#broken", "#fixed", "click", "t", "custom"⟩ : HealingEvent).healedSelector ∧
      tryOnlyFixed (k + 1)
        (⟨"#broken", "#fixed", "click", "t", "custom"⟩ : HealingEvent).healedSelector =
        Except.ok () :=
  c4_event_provenance "custom" suggestFixed tryOnlyFixed contentBlank "t" 1
    "#broken" "click" [⟨"#broken", "#fixed", "click", "t", "custom"⟩] ["#broken"]
    rfl ⟨"#broken", "#fixed", "click", "t", "custom"⟩ (by simp)

/-- Invariant of the healing loop on its provider-query trace: the first
query (when any) is seeded with the selector the loop was entered with,
and every later query is seeded with the suggestion returned by the
previous query after that suggestion failed to resolve. -/
theorem healLoop_queries_inv (suggest : String → String → Except String String)
    (tryAttempt : Nat → String → Except String Unit) (content : Nat → String)
    (providerName ts : String) (maxRetries : Nat) (selector actionName : String) :
    ∀ n attempt cur le res qs,
      healLoop suggest tryAttempt content providerName ts maxRetries selector actionName
          n attempt cur le = (res, qs) →
      (qs = [] ∨ qs.head? = some cur) ∧
      ∀ i, i + 1 < qs.length →
        ∃ s e, suggest (qs.getD i "") (content (attempt + i)) = Except.ok s ∧
          tryAttempt (attempt + i + 1) s = Except.error e ∧ qs.getD (i + 1) "" = s := by
  intro n
  induction n with
  | zero =>
    intro attempt cur le res qs h
    simp only [healLoop, Prod.mk.injEq] at h
    obtain ⟨-, hqs⟩ := h
    subst hqs
    exact ⟨Or.inl rfl, fun i hi => absurd hi (by simp)⟩
  | succ m ih =>
    intro attempt cur le res qs h
    simp only [healLoop] at h
    rcases hsug : suggest cur (content attempt) with e | s
    · simp only [hsug, Prod.mk.injEq] at h
      obtain ⟨-, hqs⟩ := h
      subst hqs
      exact ⟨Or.inr rfl, fun i hi => absurd hi (by simp)⟩
    · simp only [hsug] at h
      rcases htry : tryAttempt (attempt + 1) s with err | u
      · simp only [htry, Prod.mk.injEq] at h
        obtain ⟨-, hqs⟩ := h
        obtain ⟨ihead, istep⟩ := ih (attempt + 1) s (some err)
          (healLoop suggest tryAttempt content providerName ts maxRetries selector
            actionName m (attempt + 1) s (some err)).1
          (healLoop suggest tryAttempt content providerName ts maxRetries selector
            actionName m (attempt + 1) s (some err)).2 rfl
        subst hqs
        refine ⟨Or.inr rfl, ?_⟩
        intro i hi
        cases i with
        | zero =>
          refine ⟨s, err, by simpa using hsug, by simpa using htry, ?_⟩
          have hlen : 0 < (healLoop suggest tryAttempt content providerName ts maxRetries
              selector actionName m (attempt + 1) s (some err)).2.length := by
            simpa using hi
          rcases ihead with hnil | hhead
          · rw [hnil] at hlen
            simp at hlen
          · rcases htl : (healLoop suggest tryAttempt content providerName ts maxRetries
                selector actionName m (attempt + 1) s (some err)).2 with _ | ⟨a, t⟩
            · rw [htl] at hlen
              simp at hlen
            · rw [htl] at hhead
              simp only [List.head?_cons, Option.some.injEq] at hhead
              simp [htl, hhead]
        | succ j =>
          have hj : j + 1 < (healLoop suggest tryAttempt content providerName ts maxRetries
              selector actionName m (attempt + 1) s (some err)).2.length :=
            Nat.succ_lt_succ_iff.mp (by simpa using hi)
          obtain ⟨s', e', hs', ht', hg'⟩ := istep j hj
          refine ⟨s', e', ?_, ?_, ?_⟩
          · have ha : attempt + (j + 1) = attempt + 1 + j := by omega
            rw [ha]
            simpa using hs'
          · have ha : attempt + (j + 1) + 1 = attempt + 1 + j + 1 := by omega
            rw [ha]
            exact ht'
          · simpa using hg'
      · simp only [htry, Prod.mk.injEq] at h
        obtain ⟨-, hqs⟩ := h
        subst hqs
        exact ⟨Or.inr rfl, fun i hi => absurd hi (by simp)⟩

/-- C5: the first healing attempt seeds the provider with the original
failed selector (the head of the query trace), and every later attempt
seeds it with the previous attempt's failed suggestion, never the
original selector again: query `i + 1` equals the suggestion produced
from query `i` that then failed to resolve. -/
theorem c5_seeded_with_previous_failure
    (providerName : String) (suggest : String → String → Except String String)
    (tryAttempt : Nat → String → Except String Unit) (content : Nat → String)
    (ts : String) (maxRetries : Nat) (selector actionName : String)
    (res : Except String (List HealingEvent)) (qs : List String)
    (h : healAndRetry (some (providerName, suggest)) tryAttempt content ts maxRetries
        selector actionName = (res, qs)) :
    (qs = [] ∨ qs.head? = some selector) ∧
    ∀ i, i + 1 < qs.length →
      ∃ s e, suggest (qs.getD i "") (content i) = Except.ok s ∧
        tryAttempt (i + 1) s = Except.error e ∧ qs.getD (i + 1) "" = s := by
  unfold healAndRetry at h
  rcases h0 : tryAttempt 0 selector with e | u
  · simp only [h0] at h
    rcases hloop : healLoop suggest tryAttempt content providerName ts maxRetries
        selector actionName maxRetries 0 selector none with ⟨res', qs'⟩
    rw [hloop] at h
    have inv := healLoop_queries_inv suggest tryAttempt content providerName ts
      maxRetries selector actionName maxRetries 0 selector none res' qs' hloop
    have hqs : qs = qs' := by
      cases res' with
      | error m =>
        simp only [Prod.mk.injEq] at h
        exact h.2.symm
      | ok ev =>
        simp only [Prod.mk.injEq] at h
        exact h.2.symm
    subst hqs
    obtain ⟨ihead, istep⟩ := inv
    refine ⟨ihead, ?_⟩
    intro i hi
    obtain ⟨s, e', h1, h2, h3⟩ := istep i hi
    exact ⟨s, e', by simpa using h1, by simpa using h2, h3⟩
  · simp only [h0, Prod.mk.injEq] at h
    obtain ⟨-, hqs⟩ := h
    refine ⟨Or.inl hqs.symm, ?_⟩
    intro i hi
    rw [← hqs] at hi
    exact absurd hi (by simp)

/-- C5, witness: two healing attempts; the second query is seeded with
the failed first suggestion `#s1`, not with `#orig`. -/
theorem c5_seeded_with_previous_failure_witness :
    ((["#orig", "#s1"] : List String) = [] ∨
      (["#orig", "#s1"] : List String).head? = some "#orig") ∧
    ∃ s e, suggestChain ((["#orig", "#s1"] : List String).getD 0 "") (contentBlank 0) =
        Except.ok s ∧
      tryChain (0 + 1) s = Except.error e ∧
      (["#orig", "#s1"] : List String).getD (0 + 1) "" = s :=
  ⟨(c5_seeded_with_previous_failure "custom" suggestChain tryChain contentBlank "t" 3
      "#orig" "click"
      (Except.ok [⟨"#orig", "#s2", "click", "t", "custom"⟩]) ["#orig", "#s1"] rfl).1,
   (c5_seeded_with_previous_failure "custom" suggestChain tryChain contentBlank "t" 3
      "#orig" "click"
      (Except.ok [⟨"#orig", "#s2", "click", "t", "custom"⟩]) ["#orig", "#s1"] rfl).2
     0 (by decide)⟩
